import Mathlib

/-!
Verification of the confidence-driven handoff workflow of the `looped` support-chat
repository. The definitions below are a shallow embedding of the three workflow
variants found in the source:

* `Looped.Handoff` — the handoff workflow of `src/unnamed/part_005`
  (`runHandoffWorkflow`, wired to the chat API route via
  `processUserMessageWithHandoff`);
* `Looped.Simple` — the single-path workflow of `src/lib/ai/workflow.ts`
  (`processUserMessage`);
* `Looped.Concurrent` — the suggestion runnable and handoff step of
  `src/lib/ai/concurrent-workflow.ts`.

External collaborators (the language model, the knowledge-base search and the
persistence layer) are modelled as oracle values passed in: each call site's
outcome is either a parsed payload or a thrown error, exactly matching the
`try`/`catch` structure of the source. Confidences are rationals (the source
uses JavaScript numbers; all constants involved are exact decimals).
Console logging, message history threading and wall-clock timing fields
(`messages`, `processingTime`, `parallelResults`) are omitted: they do not feed
any branch of the workflow logic.
-/

namespace Looped

/-- Conversation status union type from the repository's shared types module. -/
inductive ConversationStatus where
  | green
  | yellow
  | red
  | resolved_ai
  | resolved_human
  | typing_ai
  | typing_user
  | active_human_needed
deriving Repr, DecidableEq

/-- Agent-facing suggestion record (`AISuggestion`); the optional
`source_document_id` field is omitted, as no workflow code path ever sets it. -/
structure AISuggestion where
  id : String
  text : String
  confidence : ℚ
deriving Repr, DecidableEq

/-- Source descriptor returned by the knowledge-base search
(`{documentId, fileName, chunkCount}`). -/
structure SourceDoc where
  documentId : String
  fileName : String
  chunkCount : ℕ
deriving Repr, DecidableEq

/-- JavaScript `x || d` for an optional numeric field: `undefined` and `0` are
falsy, every other number is truthy. -/
def jsNumOr (x : Option ℚ) (d : ℚ) : ℚ :=
  match x with
  | none => d
  | some v => if v = 0 then d else v

/-- JavaScript `x || d` for an optional string field: `undefined` and the empty
string are falsy. -/
def jsStrOr (x : Option String) (d : String) : String :=
  match x with
  | none => d
  | some s => if s = "" then d else s

/-- JavaScript `s.includes(pat)`: substring containment. -/
def jsIncludes (s pat : String) : Bool :=
  decide (pat.toList <:+: s.toList)

/-- JavaScript `s.toLowerCase()` (ASCII-faithful, which is all the workflow
compares). -/
def strToLower (s : String) : String :=
  String.mk (s.toList.map Char.toLower)

/-- Accumulator loop of `jsSplitSpace`, splitting a character list at every
single space (JavaScript `split` keeps empty segments). -/
def jsSplitSpaceAux : List Char → List Char → List String
  | [], acc => [String.mk acc.reverse]
  | c :: cs, acc =>
      if c = ' ' then String.mk acc.reverse :: jsSplitSpaceAux cs []
      else jsSplitSpaceAux cs (c :: acc)

/-- JavaScript `s.split(' ')`: split at every single space character. -/
def jsSplitSpace (s : String) : List String :=
  jsSplitSpaceAux s.toList []

/-- Payload parsed from the analyzer model call of the handoff workflow. The
prompt (and hence the parsed field) uses the misspelled key `needsImmedateHuman`;
`aiConfidence` is `none` when the model omits the field. The boolean field
carries the JavaScript truthiness of the value (absent collapses to `false`,
matching the `|| false` at the use site). -/
structure AnalysisJson where
  aiConfidence : Option ℚ
  needsImmedateHuman : Bool
  reasoning : String
deriving Repr

/-- Payload parsed from the response-generation model call
(`{response, confidence, suggestsHumanHelp, reasoning}`; `reasoning` is only
logged and is omitted). -/
structure GenJson where
  response : String
  confidence : ℚ
  suggestsHumanHelp : Bool
deriving Repr

/-- One entry of the suggestions array parsed from the suggestion model call. -/
structure SugJson where
  text : String
  confidence : ℚ
deriving Repr

/-- Result of a successful knowledge-base search: chunk texts plus source
descriptors. -/
structure KBResult where
  chunks : List String
  sources : List SourceDoc
deriving Repr

/-- Outcome of the raw supabase status update in the handoff step: the call can
succeed, resolve with an error result object (which the code only logs), or
throw. -/
inductive DbOutcome where
  | ok
  | errResult
  | thrown
deriving Repr, DecidableEq

namespace Handoff

/-- The `HandoffWorkflowState` record of `src/unnamed/part_005` (the
`messages` history field is omitted: it is only spliced into prompts). -/
structure WState where
  conversationId : String
  companyId : String
  userQuery : String
  currentStatus : ConversationStatus
  confidence : ℚ
  retrievedContext : List String
  suggestions : List AISuggestion
  needsHumanIntervention : Bool
  finalResponse : String
  sources : List SourceDoc
  escalationReason : String
  agentAssigned : Bool
deriving Repr, DecidableEq

/-- Outcomes of the five external calls one run of the handoff workflow can
make: analyzer model call (invoke + JSON extraction), knowledge-base search,
generator model call, suggestion model call, and the conversation-status
update. -/
structure HandoffOracle where
  analysis : Except Unit AnalysisJson
  kb : Except Unit KBResult
  gen : Except Unit GenJson
  sugg : Except Unit (List SugJson)
  db : DbOutcome

/-- Step 1 (`analyzeQuery`): on a parsed analysis, take `aiConfidence || 0.8`,
`needsImmedateHuman || false` and the conditional escalation reason; on any
thrown error, fall back to confidence `0.5` with no intervention flag. -/
def analyzeQuery (o : Except Unit AnalysisJson) (state : WState) : WState :=
  match o with
  | .ok analysis =>
      { state with
        confidence := jsNumOr analysis.aiConfidence 0.8
        needsHumanIntervention := analysis.needsImmedateHuman
        escalationReason := if analysis.needsImmedateHuman then analysis.reasoning else "" }
  | .error _ =>
      { state with
        confidence := 0.5
        needsHumanIntervention := false
        escalationReason := "Analysis failed - proceeding with caution" }

/-- The fixed fallback context used when the knowledge base returns no chunks. -/
def fallbackContext : List String :=
  ["Company policy: We offer 24/7 customer support for all premium users.",
   "FAQ: Account issues can usually be resolved by clearing browser cache.",
   "Support hours: Our human agents are available Monday-Friday 9AM-6PM EST."]

/-- Step 2 (`retrieveContext`): keep the found chunks and sources, fall back to
the static context on an empty result, and on a thrown search error store an
error passage and reduce confidence to `min(confidence * 0.7, 0.5)`. -/
def retrieveContext (o : Except Unit KBResult) (state : WState) : WState :=
  match o with
  | .ok searchResults =>
      if 0 < searchResults.chunks.length then
        { state with
          retrievedContext := searchResults.chunks
          sources := searchResults.sources }
      else
        { state with retrievedContext := fallbackContext, sources := [] }
  | .error _ =>
      { state with
        retrievedContext := ["Error accessing knowledge base - escalating to human support"]
        sources := []
        confidence := min (state.confidence * 0.7) 0.5 }

/-- The apology emitted when the generator model call throws. -/
def genFailureMsg : String :=
  "I\x27m having trouble processing your request. Let me connect you with a human agent."

/-- Step 3 (`generateResponse`): on success blend
`min(confidence * 0.6 + aiResponse.confidence * 0.4, 0.95)` and OR in the
generator's escalation flag; on a thrown error fix the apology, confidence
`0.3` and force intervention. -/
def generateResponse (o : Except Unit GenJson) (state : WState) : WState :=
  match o with
  | .ok aiResponse =>
      { state with
        finalResponse := aiResponse.response
        confidence := min (state.confidence * 0.6 + aiResponse.confidence * 0.4) 0.95
        needsHumanIntervention := state.needsHumanIntervention || aiResponse.suggestsHumanHelp }
  | .error _ =>
      { state with
        finalResponse := genFailureMsg
        confidence := 0.3
        needsHumanIntervention := true
        escalationReason := "AI response generation failed" }

/-- The static suggestion used when the suggestion model call fails. -/
def fallbackSuggestion : AISuggestion :=
  { id := "fallback_suggestion"
    text := "Review the conversation context and provide personalized assistance"
    confidence := 0.8 }

/-- Helper `generateSuggestions` of the handoff workflow: map the parsed
array to suggestions with positional ids, or fall back to the single static
suggestion when the call or the parse fails. The state argument only feeds the
prompt text. -/
def generateSuggestions (o : Except Unit (List SugJson)) (_state : WState) : List AISuggestion :=
  match o with
  | .ok suggestions =>
      suggestions.mapIdx fun index s =>
        { id := "suggestion_" ++ toString index, text := s.text, confidence := s.confidence }
  | .error _ => [fallbackSuggestion]

/-- The two fixed suggestions attached to a red classification in
`determineStatus`. -/
def redSuggestions : List AISuggestion :=
  [{ id := "escalate_immediately"
     text := "Escalate to human agent immediately"
     confidence := 0.95 },
   { id := "review_context"
     text := "Review available knowledge base context"
     confidence := 0.8 }]

/-- Step 4 (`determineStatus`): red with the two fixed suggestions when the
intervention flag is set or confidence is below `0.5`; yellow with generated
suggestions when confidence is below `0.7`; green with no suggestions
otherwise. -/
def determineStatus (o : Except Unit (List SugJson)) (state : WState) : WState :=
  if state.needsHumanIntervention ∨ state.confidence < 0.5 then
    { state with currentStatus := .red, suggestions := redSuggestions }
  else if state.confidence < 0.7 then
    { state with currentStatus := .yellow, suggestions := generateSuggestions o state }
  else
    { state with currentStatus := .green, suggestions := [] }

/-- The sentence appended to the response on the red handoff path. -/
def connectMsg : String :=
  "\n\nI\x27m connecting you with a human agent who can better assist you."

/-- Step 5 (`handleHandoff`): the status update's error result is only logged;
when the update throws, the catch returns the state unchanged; otherwise a red
status gets `agentAssigned := false` and the connect sentence appended. -/
def handleHandoff (db : DbOutcome) (state : WState) : WState :=
  match db with
  | .thrown => state
  | _ =>
      if state.currentStatus = .red then
        { state with
          agentAssigned := false
          finalResponse := state.finalResponse ++ connectMsg }
      else state

/-- Initial workflow state of `runHandoffWorkflow`. -/
def initState (conversationId userMessage companyId : String) : WState :=
  { conversationId := conversationId
    companyId := companyId
    userQuery := userMessage
    currentStatus := .green
    confidence := 0.8
    retrievedContext := []
    suggestions := []
    needsHumanIntervention := false
    finalResponse := ""
    sources := []
    escalationReason := ""
    agentAssigned := false }

/-- The fixed message of the early-escalation short circuit. -/
def earlyEscalationMsg : String :=
  "This request requires immediate human assistance. I\x27m connecting you with an agent."

/-- Which of the two skippable stages a run actually invoked, for the
call-count assertions of the early-exit scenario. -/
structure Trace where
  retrieverCalled : Bool
  generatorCalled : Bool
deriving Repr, DecidableEq

/-- The orchestrator `runHandoffWorkflow`: analyze, short-circuit to red when
the intervention flag is set with confidence below `0.3`, otherwise retrieve,
generate, classify, and hand off on red. The outer `catch` of the source is
unreachable here because every stage catches its own errors, which the
embedding reflects by construction. -/
def runHandoffWorkflow (conversationId userMessage companyId : String)
    (o : HandoffOracle) : WState × Trace :=
  let state := analyzeQuery o.analysis (initState conversationId userMessage companyId)
  if state.needsHumanIntervention ∧ state.confidence < 0.3 then
    let st := { state with currentStatus := .red, finalResponse := earlyEscalationMsg }
    (handleHandoff o.db st, ⟨false, false⟩)
  else
    let s2 := retrieveContext o.kb state
    let s3 := generateResponse o.gen s2
    let s4 := determineStatus o.sugg s3
    let s5 := if s4.currentStatus = .red then handleHandoff o.db s4 else s4
    (s5, ⟨true, true⟩)

/-- The result record returned to callers of the chat route
(`{response, status, confidence, suggestions, sources?}`). -/
structure WorkflowOutput where
  response : String
  status : ConversationStatus
  confidence : ℚ
  suggestions : List AISuggestion
  sources : Option (List SourceDoc)
deriving Repr, DecidableEq

/-- Entry point `processUserMessageWithHandoff`: run the workflow and project
the result fields; `sources` is `undefined` when empty. -/
def processUserMessageWithHandoff (conversationId userMessage companyId : String)
    (o : HandoffOracle) : WorkflowOutput :=
  let result := (runHandoffWorkflow conversationId userMessage companyId o).1
  { response := result.finalResponse
    status := result.currentStatus
    confidence := result.confidence
    suggestions := result.suggestions
    sources := if 0 < result.sources.length then some result.sources else none }

/-- Did the parsed analysis carry a truthy `needsImmedateHuman` flag? -/
def analysisFlag (o : HandoffOracle) : Bool :=
  match o.analysis with
  | .ok a => a.needsImmedateHuman
  | .error _ => false

/-- Did the parsed generation payload carry a truthy `suggestsHumanHelp`
flag? -/
def genFlag (o : HandoffOracle) : Bool :=
  match o.gen with
  | .ok g => g.suggestsHumanHelp
  | .error _ => false

/-- Does the run take the early-escalation short circuit? (After a failed
analysis the flag is false, so only a parsed analysis can trigger it.) -/
def earlyExitB (o : HandoffOracle) : Bool :=
  match o.analysis with
  | .ok a => a.needsImmedateHuman && decide (jsNumOr a.aiConfidence 0.8 < 0.3)
  | .error _ => false

/-- A human-needed flag fired at a stage that actually ran: the analyzer's
flag, or the generator's flag on a run that reached generation. -/
def flagFired (o : HandoffOracle) : Bool :=
  analysisFlag o || (!earlyExitB o && genFlag o)

end Handoff

namespace Simple

/-- Payload parsed from the simple workflow's analysis model call; string
fields are `none` when absent. -/
structure AnalysisSimpleJson where
  intent : Option String
  urgency : Option String
  complexity : Option String
  needsHuman : Bool
  confidence : Option ℚ
deriving Repr

/-- The defaulted analysis record the simple workflow works with. -/
structure AnalysisResult where
  intent : String
  urgency : String
  complexity : String
  needsHuman : Bool
  confidence : ℚ
deriving Repr, DecidableEq

/-- Simple-workflow `analyzeQuery`: field-wise `||` defaulting on a parsed
payload; the fixed defaults (confidence `0.5`, no human) on a parse error. -/
def analyzeQuery (o : Except Unit AnalysisSimpleJson) : AnalysisResult :=
  match o with
  | .ok analysis =>
      { intent := jsStrOr analysis.intent "general_inquiry"
        urgency := jsStrOr analysis.urgency "medium"
        complexity := jsStrOr analysis.complexity "moderate"
        needsHuman := analysis.needsHuman
        confidence := jsNumOr analysis.confidence 0.8 }
  | .error _ =>
      { intent := "general_inquiry"
        urgency := "medium"
        complexity := "moderate"
        needsHuman := false
        confidence := 0.5 }

/-- The five mock passages of the simple workflow's fallback path. -/
def mockContext : List String :=
  ["Company policy: We offer 24/7 customer support for all premium users.",
   "FAQ: Account issues can usually be resolved by clearing browser cache.",
   "Knowledge base: Password reset requires email verification.",
   "Support hours: Our human agents are available Monday-Friday 9AM-6PM EST.",
   "Escalation policy: Complex technical issues should be escalated to Level 2 support."]

/-- The context returned when the retrieval step itself throws. -/
def errorContext : List String :=
  ["I apologize, but I\x27m having trouble accessing our knowledge base right now.",
   "For immediate assistance, please contact our support team.",
   "Our support hours are Monday-Friday 9AM-6PM EST."]

/-- The keyword-filtered mock path of `retrieveContext`: passages whose
lower-cased text contains some whitespace-split lower-cased query keyword, or
the first three mock passages when none match; never any sources. -/
def mockRetrieval (userQuery : String) : List String × List SourceDoc :=
  let keywords := jsSplitSpace (strToLower userQuery)
  let relevantContext := mockContext.filter fun context =>
    keywords.any fun keyword => jsIncludes (strToLower context) keyword
  (if 0 < relevantContext.length then relevantContext else mockContext.take 3, [])

/-- Simple-workflow `retrieveContext`: search the knowledge base only when a
company id is present; fall through to the mock path on a missing id or an
empty result; answer the error context when the search throws. -/
def retrieveContext (kbO : Except Unit KBResult) (userQuery : String)
    (companyId : Option String) : List String × List SourceDoc :=
  match companyId with
  | some _ =>
      match kbO with
      | .ok searchResults =>
          if 0 < searchResults.chunks.length then
            (searchResults.chunks, searchResults.sources)
          else mockRetrieval userQuery
      | .error _ => (errorContext, [])
  | none => mockRetrieval userQuery

/-- Hedging detection of the simple workflow's confidence heuristic. -/
def hedges (aiResponse : String) : Bool :=
  jsIncludes (strToLower aiResponse) "not sure" ||
    jsIncludes (strToLower aiResponse) "don\x27t know"

/-- The apology returned when the simple workflow's generator call throws. -/
def genFailureMsg : String :=
  "I\x27m sorry, I\x27m having trouble processing your request right now. Please try again or contact human support."

/-- Simple-workflow `generateResponse`: the model returns plain text; the
confidence starts at the fixed `0.8`, is set to `0.6` on hedging language, set
to `0.5` when the context is empty or contains a `trouble accessing` passage,
and boosted by `0.1` (capped at `0.95`) when real sources are present; a thrown
call yields the apology with confidence `0.3`. -/
def generateResponse (o : Except Unit String) (context : List String)
    (sources : List SourceDoc) : String × ℚ :=
  match o with
  | .ok aiResponse =>
      let confidence : ℚ := 0.8
      let confidence := if hedges aiResponse then (0.6 : ℚ) else confidence
      let confidence :=
        if context.length = 0 ∨ context.any (fun c => jsIncludes c "trouble accessing") then
          (0.5 : ℚ)
        else confidence
      let confidence :=
        if 0 < sources.length then min (confidence + 0.1) 0.95 else confidence
      (aiResponse, confidence)
  | .error _ => (genFailureMsg, 0.3)

/-- The three static fallback suggestions of the simple workflow. -/
def fallbackSuggestions : List AISuggestion :=
  [{ id := "suggestion_0"
     text := "Review the user\x27s account history for similar issues"
     confidence := 0.7 },
   { id := "suggestion_1"
     text := "Check the knowledge base for relevant documentation"
     confidence := 0.8 },
   { id := "suggestion_2"
     text := "Consider escalating to technical support if needed"
     confidence := 0.8 }]

/-- Simple-workflow `generateSuggestions`: skip entirely above confidence
`0.8`; otherwise map the parsed array to positional-id suggestions or fall
back to the three static ones. The query, context and sources arguments only
feed the prompt text. -/
def generateSuggestions (o : Except Unit (List SugJson)) (confidence : ℚ) : List AISuggestion :=
  if 0.8 < confidence then []
  else
    match o with
    | .ok suggestions =>
        suggestions.mapIdx fun index s =>
          { id := "suggestion_" ++ toString index, text := s.text, confidence := s.confidence }
    | .error _ => fallbackSuggestions

/-- Outcomes of the simple workflow's external calls. -/
structure SimpleOracle where
  analysis : Except Unit AnalysisSimpleJson
  kb : Except Unit KBResult
  gen : Except Unit String
  sugg : Except Unit (List SugJson)

/-- Status classification of `processUserMessage`: start green, drop to yellow
on the analyzer's human flag or confidence below `0.7`, and to red on
confidence below `0.5`. -/
def statusOf (needsHuman : Bool) (confidence : ℚ) : ConversationStatus :=
  let status : ConversationStatus := .green
  let status := if needsHuman ∨ confidence < 0.7 then ConversationStatus.yellow else status
  if confidence < 0.5 then .red else status

/-- The simple workflow `processUserMessage`: analyze, retrieve, generate,
classify by the generator confidence and analyzer flag, generate suggestions
from the generator confidence, and project the result record. -/
def processUserMessage (userMessage : String) (companyId : Option String)
    (o : SimpleOracle) : Handoff.WorkflowOutput :=
  let analysis := analyzeQuery o.analysis
  let cs := retrieveContext o.kb userMessage companyId
  let rc := generateResponse o.gen cs.1 cs.2
  let status := statusOf analysis.needsHuman rc.2
  let suggestions := generateSuggestions o.sugg rc.2
  { response := rc.1
    status := status
    confidence := rc.2
    suggestions := suggestions
    sources := if 0 < cs.2.length then some cs.2 else none }

end Simple

namespace Concurrent

/-- The concurrent workflow's suggestions runnable: empty above confidence
`0.7` (the value passed in is the state's confidence at call time); otherwise
the mapped parsed array, or the single static fallback suggestion on
failure. -/
def createSuggestionsRunnable (confidence : ℚ) (o : Except Unit (List SugJson)) :
    List AISuggestion :=
  if 0.7 < confidence then []
  else
    match o with
    | .ok suggestions =>
        suggestions.mapIdx fun index s =>
          { id := "suggestion_" ++ toString index, text := s.text, confidence := s.confidence }
    | .error _ => [Handoff.fallbackSuggestion]

/-- The concurrent handoff step: `OptimizedQueries.updateConversationStatus`
throws on any failure, so its outcome is success or a thrown error; a thrown
update is caught and the state returned unchanged, otherwise a red status gets
the connect sentence appended. The state shape is shared with the handoff
workflow (the concurrent state's extra timing/diagnostic fields are not read
here). -/
def handleConcurrentHandoff (db : Except Unit Unit) (state : Handoff.WState) :
    Handoff.WState :=
  match db with
  | .ok _ =>
      if state.currentStatus = .red then
        { state with finalResponse := state.finalResponse ++ Handoff.connectMsg }
      else state
  | .error _ => state

end Concurrent

namespace Handoff

/-- Derived value: the confidence the analysis step leaves in the state. -/
def analysisConf (o : HandoffOracle) : ℚ :=
  match o.analysis with
  | .ok a => jsNumOr a.aiConfidence 0.8
  | .error _ => 0.5

/-- Derived value: the confidence entering response generation — the analysis
confidence, reduced by the retrieval step only when the search threw. -/
def preGenConf (o : HandoffOracle) : ℚ :=
  match o.kb with
  | .ok _ => analysisConf o
  | .error _ => min (analysisConf o * 0.7) 0.5

/-- Derived value: the confidence a non-short-circuited run ends with. -/
def finalConf (o : HandoffOracle) : ℚ :=
  match o.gen with
  | .ok g => min (preGenConf o * 0.6 + g.confidence * 0.4) 0.95
  | .error _ => 0.3

/-- Derived value: the intervention flag a non-short-circuited run ends
with. -/
def finalNeeds (o : HandoffOracle) : Bool :=
  match o.gen with
  | .ok g => analysisFlag o || g.suggestsHumanHelp
  | .error _ => true

/-- The state a non-short-circuited run returns: the four-step chain plus the
conditional handoff. -/
def normalFinalState (c q co : String) (o : HandoffOracle) : WState :=
  let s4 := determineStatus o.sugg
    (generateResponse o.gen (retrieveContext o.kb (analyzeQuery o.analysis (initState c q co))))
  if s4.currentStatus = .red then handleHandoff o.db s4 else s4

/-- Derived value: the response text the generation step leaves in the state. -/
def genResponseText (o : HandoffOracle) : String :=
  match o.gen with
  | .ok g => g.response
  | .error _ => genFailureMsg

/-- Oracle family of the total language-model outage scenario: all three model
calls throw, with arbitrary knowledge-base and persistence outcomes. -/
def outageOracle (kbO : Except Unit KBResult) (dbO : DbOutcome) : HandoffOracle :=
  { analysis := .error ()
    kb := kbO
    gen := .error ()
    sugg := .error ()
    db := dbO }

end Handoff

section Oracles

open Handoff

/-- Oracle of the early-escalation scenario: the analyzer reports a truthy
confidence `0.1` with the immediate-human flag set. -/
def oEarlyRed : HandoffOracle :=
  { analysis := .ok { aiConfidence := some 0.1, needsImmedateHuman := true, reasoning := "r" }
    kb := .ok { chunks := ["c"], sources := [] }
    gen := .ok { response := "resp", confidence := 0.9, suggestsHumanHelp := false }
    sugg := .ok [{ text := "t", confidence := 0.5 }]
    db := .ok }

/-- Oracle where the analyzer reports a negative confidence with the
immediate-human flag set. -/
def oNegConf : HandoffOracle :=
  { analysis := .ok { aiConfidence := some (-1), needsImmedateHuman := true, reasoning := "" }
    kb := .ok { chunks := ["c"], sources := [] }
    gen := .ok { response := "resp", confidence := 0.9, suggestsHumanHelp := false }
    sugg := .ok []
    db := .ok }

/-- Oracle of the total language-model outage scenario: every model call
throws; the knowledge base finds nothing and the status update succeeds. -/
def oAllThrow : HandoffOracle :=
  { analysis := .error ()
    kb := .ok { chunks := [], sources := [] }
    gen := .error ()
    sugg := .error ()
    db := .ok }

/-- Oracle where the analyzer reports the immediate-human flag with a
confidence of exactly `0`. -/
def oZeroConf : HandoffOracle :=
  { analysis := .ok { aiConfidence := some 0, needsImmedateHuman := true, reasoning := "" }
    kb := .ok { chunks := ["c"], sources := [] }
    gen := .ok { response := "resp", confidence := 0.9, suggestsHumanHelp := false }
    sugg := .error ()
    db := .ok }

/-- Oracle where the knowledge-base search throws between a high-confidence
analysis and a successful generation. -/
def oKbThrow : HandoffOracle :=
  { analysis := .ok { aiConfidence := some 0.9, needsImmedateHuman := false, reasoning := "" }
    kb := .error ()
    gen := .ok { response := "resp", confidence := 0.5, suggestsHumanHelp := false }
    sugg := .error ()
    db := .ok }

/-- Oracle where generation throws (forcing the red path) and the
conversation-status update also throws. -/
def oGenFailDbThrow : HandoffOracle :=
  { analysis := .ok { aiConfidence := some 0.9, needsImmedateHuman := false, reasoning := "" }
    kb := .ok { chunks := ["KB passage"], sources := [{ documentId := "d1", fileName := "doc.pdf", chunkCount := 1 }] }
    gen := .error ()
    sugg := .error ()
    db := .thrown }

/-- Witness oracle: analyzer flag fired with confidence `0.5` (no short
circuit). -/
def oW1 : HandoffOracle :=
  { analysis := .ok { aiConfidence := some 0.5, needsImmedateHuman := true, reasoning := "x" }
    kb := .ok { chunks := ["c"], sources := [] }
    gen := .ok { response := "resp", confidence := 0.9, suggestsHumanHelp := false }
    sugg := .error ()
    db := .ok }

/-- Witness oracle: a plain yellow run (confidence `0.6` on both stages) whose
suggestion call throws. -/
def oW2 : HandoffOracle :=
  { analysis := .ok { aiConfidence := some 0.6, needsImmedateHuman := false, reasoning := "" }
    kb := .ok { chunks := ["c"], sources := [] }
    gen := .ok { response := "resp", confidence := 0.6, suggestsHumanHelp := false }
    sugg := .error ()
    db := .ok }

/-- Witness oracle: all reported confidences inside `[0, 1]`. -/
def oW3 : HandoffOracle :=
  { analysis := .ok { aiConfidence := some 0.9, needsImmedateHuman := false, reasoning := "" }
    kb := .ok { chunks := ["c"], sources := [] }
    gen := .ok { response := "resp", confidence := 0.9, suggestsHumanHelp := false }
    sugg := .ok []
    db := .ok }

/-- Witness oracle: immediate-human flag with a truthy confidence `0.2`. -/
def oW5 : HandoffOracle :=
  { analysis := .ok { aiConfidence := some 0.2, needsImmedateHuman := true, reasoning := "urgent" }
    kb := .ok { chunks := ["c"], sources := [] }
    gen := .ok { response := "resp", confidence := 0.9, suggestsHumanHelp := false }
    sugg := .ok []
    db := .ok }

/-- Witness oracle: a successful generation after a successful retrieval. -/
def oW6 : HandoffOracle :=
  { analysis := .ok { aiConfidence := some 0.8, needsImmedateHuman := false, reasoning := "" }
    kb := .ok { chunks := ["c"], sources := [] }
    gen := .ok { response := "resp", confidence := 0.5, suggestsHumanHelp := false }
    sugg := .ok []
    db := .ok }

/-- Witness oracle: parsed analysis reporting confidence exactly `0`. -/
def oW9 : HandoffOracle :=
  { analysis := .ok { aiConfidence := some 0, needsImmedateHuman := false, reasoning := "" }
    kb := .ok { chunks := ["c"], sources := [] }
    gen := .ok { response := "resp", confidence := 0.9, suggestsHumanHelp := false }
    sugg := .ok []
    db := .ok }

/-- Witness state: a red conversation state about to be handed off. -/
def sW10 : WState :=
  { initState "c1" "q" "co" with currentStatus := .red, finalResponse := "Base." }

/-- A hedge-free reply used against the knowledge-base-miss fallback context. -/
def c7Reply : String :=
  "Our support hours are Monday through Friday."

/-- A hedged reply (contains the marker `not sure`). -/
def c7Hedged : String :=
  "I am not sure."

/-- Four parsed suggestion entries, one more than the documented bound. -/
def c8List : List SugJson :=
  [{ text := "a", confidence := 0.5 }, { text := "b", confidence := 0.5 },
   { text := "c", confidence := 0.5 }, { text := "d", confidence := 0.5 }]

end Oracles

namespace Handoff

theorem analyzeQuery_confidence (o : Except Unit AnalysisJson) (s : WState) :
    (analyzeQuery o s).confidence =
      match o with
      | .ok a => jsNumOr a.aiConfidence 0.8
      | .error _ => 0.5 := by
  cases o <;> rfl

theorem analyzeQuery_needs (o : Except Unit AnalysisJson) (s : WState) :
    (analyzeQuery o s).needsHumanIntervention =
      match o with
      | .ok a => a.needsImmedateHuman
      | .error _ => false := by
  cases o <;> rfl

theorem analyzeQuery_suggestions (o : Except Unit AnalysisJson) (s : WState) :
    (analyzeQuery o s).suggestions = s.suggestions := by
  cases o <;> rfl

theorem retrieveContext_confidence (o : Except Unit KBResult) (s : WState) :
    (retrieveContext o s).confidence =
      match o with
      | .ok _ => s.confidence
      | .error _ => min (s.confidence * 0.7) 0.5 := by
  cases o with
  | ok r =>
      simp only [retrieveContext]
      split <;> rfl
  | error e => rfl

theorem retrieveContext_needs (o : Except Unit KBResult) (s : WState) :
    (retrieveContext o s).needsHumanIntervention = s.needsHumanIntervention := by
  cases o with
  | ok r =>
      simp only [retrieveContext]
      split <;> rfl
  | error e => rfl

theorem retrieveContext_suggestions (o : Except Unit KBResult) (s : WState) :
    (retrieveContext o s).suggestions = s.suggestions := by
  cases o with
  | ok r =>
      simp only [retrieveContext]
      split <;> rfl
  | error e => rfl

theorem generateResponse_confidence (o : Except Unit GenJson) (s : WState) :
    (generateResponse o s).confidence =
      match o with
      | .ok g => min (s.confidence * 0.6 + g.confidence * 0.4) 0.95
      | .error _ => 0.3 := by
  cases o <;> rfl

theorem generateResponse_needs (o : Except Unit GenJson) (s : WState) :
    (generateResponse o s).needsHumanIntervention =
      match o with
      | .ok g => s.needsHumanIntervention || g.suggestsHumanHelp
      | .error _ => true := by
  cases o <;> rfl

theorem determineStatus_confidence (o : Except Unit (List SugJson)) (s : WState) :
    (determineStatus o s).confidence = s.confidence := by
  unfold determineStatus
  split_ifs <;> rfl

theorem determineStatus_status (o : Except Unit (List SugJson)) (s : WState) :
    (determineStatus o s).currentStatus =
      if s.needsHumanIntervention ∨ s.confidence < 0.5 then ConversationStatus.red
      else if s.confidence < 0.7 then ConversationStatus.yellow
      else ConversationStatus.green := by
  unfold determineStatus
  split_ifs <;> rfl

theorem determineStatus_suggestions (o : Except Unit (List SugJson)) (s : WState) :
    (determineStatus o s).suggestions =
      if s.needsHumanIntervention ∨ s.confidence < 0.5 then redSuggestions
      else if s.confidence < 0.7 then generateSuggestions o s
      else [] := by
  unfold determineStatus
  split_ifs <;> rfl

theorem generateSuggestions_state_free (o : Except Unit (List SugJson)) (s s' : WState) :
    generateSuggestions o s = generateSuggestions o s' := by
  cases o <;> rfl

theorem handleHandoff_status (db : DbOutcome) (s : WState) :
    (handleHandoff db s).currentStatus = s.currentStatus := by
  cases db with
  | thrown => rfl
  | ok =>
      simp only [handleHandoff]
      split <;> rfl
  | errResult =>
      simp only [handleHandoff]
      split <;> rfl

theorem handleHandoff_confidence (db : DbOutcome) (s : WState) :
    (handleHandoff db s).confidence = s.confidence := by
  cases db with
  | thrown => rfl
  | ok =>
      simp only [handleHandoff]
      split <;> rfl
  | errResult =>
      simp only [handleHandoff]
      split <;> rfl

theorem handleHandoff_suggestions (db : DbOutcome) (s : WState) :
    (handleHandoff db s).suggestions = s.suggestions := by
  cases db with
  | thrown => rfl
  | ok =>
      simp only [handleHandoff]
      split <;> rfl
  | errResult =>
      simp only [handleHandoff]
      split <;> rfl

theorem handleHandoff_needs (db : DbOutcome) (s : WState) :
    (handleHandoff db s).needsHumanIntervention = s.needsHumanIntervention := by
  cases db with
  | thrown => rfl
  | ok =>
      simp only [handleHandoff]
      split <;> rfl
  | errResult =>
      simp only [handleHandoff]
      split <;> rfl

theorem handleHandoff_response_red (db : DbOutcome) (s : WState) (h : s.currentStatus = .red) :
    (handleHandoff db s).finalResponse =
      if db = DbOutcome.thrown then s.finalResponse else s.finalResponse ++ connectMsg := by
  cases db with
  | thrown => rfl
  | ok => simp [handleHandoff, h]
  | errResult => simp [handleHandoff, h]

theorem earlyCond_iff (c q co : String) (o : HandoffOracle) :
    ((analyzeQuery o.analysis (initState c q co)).needsHumanIntervention = true ∧
        (analyzeQuery o.analysis (initState c q co)).confidence < 0.3) ↔
      earlyExitB o = true := by
  obtain ⟨oa, okb, og, os, od⟩ := o
  cases oa with
  | ok a => simp [analyzeQuery, earlyExitB]
  | error e => simp [analyzeQuery, earlyExitB]

theorem run_early (c q co : String) (o : HandoffOracle) (h : earlyExitB o = true) :
    runHandoffWorkflow c q co o =
      (handleHandoff o.db
        { analyzeQuery o.analysis (initState c q co) with
          currentStatus := .red, finalResponse := earlyEscalationMsg },
       ⟨false, false⟩) := by
  simp only [runHandoffWorkflow]
  rw [if_pos ((earlyCond_iff c q co o).mpr h)]

theorem run_normal (c q co : String) (o : HandoffOracle) (h : earlyExitB o = false) :
    runHandoffWorkflow c q co o = (normalFinalState c q co o, ⟨true, true⟩) := by
  simp only [runHandoffWorkflow, normalFinalState]
  rw [if_neg (fun hc => absurd ((earlyCond_iff c q co o).mp hc) (by simp [h]))]

theorem chain_conf (c q co : String) (o : HandoffOracle) :
    (generateResponse o.gen
        (retrieveContext o.kb (analyzeQuery o.analysis (initState c q co)))).confidence =
      finalConf o := by
  obtain ⟨oa, okb, og, os, od⟩ := o
  rw [generateResponse_confidence]
  unfold finalConf preGenConf analysisConf
  cases og <;> cases okb <;>
    rw [retrieveContext_confidence] <;> cases oa <;>
    rw [analyzeQuery_confidence]

theorem chain_needs (c q co : String) (o : HandoffOracle) :
    (generateResponse o.gen
        (retrieveContext o.kb (analyzeQuery o.analysis (initState c q co)))).needsHumanIntervention =
      finalNeeds o := by
  obtain ⟨oa, okb, og, os, od⟩ := o
  rw [generateResponse_needs]
  unfold finalNeeds analysisFlag
  cases og <;> rw [retrieveContext_needs] <;> cases oa <;> rw [analyzeQuery_needs]

theorem normal_confidence (c q co : String) (o : HandoffOracle) :
    (normalFinalState c q co o).confidence = finalConf o := by
  unfold normalFinalState
  have hh : ∀ s4 : WState,
      (if s4.currentStatus = .red then handleHandoff o.db s4 else s4).confidence =
        s4.confidence := by
    intro s4
    split
    · exact handleHandoff_confidence o.db s4
    · rfl
  rw [hh, determineStatus_confidence, chain_conf]

theorem normal_status (c q co : String) (o : HandoffOracle) :
    (normalFinalState c q co o).currentStatus =
      if finalNeeds o ∨ finalConf o < 0.5 then ConversationStatus.red
      else if finalConf o < 0.7 then ConversationStatus.yellow
      else ConversationStatus.green := by
  unfold normalFinalState
  have hh : ∀ s4 : WState,
      (if s4.currentStatus = .red then handleHandoff o.db s4 else s4).currentStatus =
        s4.currentStatus := by
    intro s4
    split
    · exact handleHandoff_status o.db s4
    · rfl
  rw [hh, determineStatus_status, chain_conf, chain_needs]

theorem normal_suggestions (c q co : String) (o : HandoffOracle) :
    (normalFinalState c q co o).suggestions =
      if finalNeeds o ∨ finalConf o < 0.5 then redSuggestions
      else if finalConf o < 0.7 then generateSuggestions o.sugg (initState c q co)
      else [] := by
  unfold normalFinalState
  have hh : ∀ s4 : WState,
      (if s4.currentStatus = .red then handleHandoff o.db s4 else s4).suggestions =
        s4.suggestions := by
    intro s4
    split
    · exact handleHandoff_suggestions o.db s4
    · rfl
  rw [hh, determineStatus_suggestions, chain_conf, chain_needs,
    generateSuggestions_state_free _ _ (initState c q co)]

theorem early_status (c q co : String) (o : HandoffOracle) (h : earlyExitB o = true) :
    (runHandoffWorkflow c q co o).1.currentStatus = ConversationStatus.red := by
  rw [run_early c q co o h]
  rw [handleHandoff_status]

theorem early_confidence (c q co : String) (o : HandoffOracle) (h : earlyExitB o = true) :
    (runHandoffWorkflow c q co o).1.confidence = analysisConf o := by
  rw [run_early c q co o h]
  rw [handleHandoff_confidence]
  show (analyzeQuery o.analysis (initState c q co)).confidence = analysisConf o
  rw [analyzeQuery_confidence]
  unfold analysisConf
  cases o.analysis <;> rfl

theorem early_suggestions (c q co : String) (o : HandoffOracle) (h : earlyExitB o = true) :
    (runHandoffWorkflow c q co o).1.suggestions = [] := by
  rw [run_early c q co o h]
  rw [handleHandoff_suggestions]
  show (analyzeQuery o.analysis (initState c q co)).suggestions = []
  rw [analyzeQuery_suggestions]
  rfl

theorem early_response (c q co : String) (o : HandoffOracle) (h : earlyExitB o = true) :
    (runHandoffWorkflow c q co o).1.finalResponse =
      if o.db = DbOutcome.thrown then earlyEscalationMsg
      else earlyEscalationMsg ++ connectMsg := by
  rw [run_early c q co o h]
  rw [handleHandoff_response_red _ _ rfl]

theorem run_status_normal (c q co : String) (o : HandoffOracle) (h : earlyExitB o = false) :
    (runHandoffWorkflow c q co o).1.currentStatus =
      if finalNeeds o ∨ finalConf o < 0.5 then ConversationStatus.red
      else if finalConf o < 0.7 then ConversationStatus.yellow
      else ConversationStatus.green := by
  rw [run_normal c q co o h]
  exact normal_status c q co o

theorem run_conf_normal (c q co : String) (o : HandoffOracle) (h : earlyExitB o = false) :
    (runHandoffWorkflow c q co o).1.confidence = finalConf o := by
  rw [run_normal c q co o h]
  exact normal_confidence c q co o

theorem run_sugg_normal (c q co : String) (o : HandoffOracle) (h : earlyExitB o = false) :
    (runHandoffWorkflow c q co o).1.suggestions =
      if finalNeeds o ∨ finalConf o < 0.5 then redSuggestions
      else if finalConf o < 0.7 then generateSuggestions o.sugg (initState c q co)
      else [] := by
  rw [run_normal c q co o h]
  exact normal_suggestions c q co o

theorem pum_status (c q co : String) (o : HandoffOracle) :
    (processUserMessageWithHandoff c q co o).status =
      (runHandoffWorkflow c q co o).1.currentStatus := rfl

theorem pum_confidence (c q co : String) (o : HandoffOracle) :
    (processUserMessageWithHandoff c q co o).confidence =
      (runHandoffWorkflow c q co o).1.confidence := rfl

theorem pum_suggestions (c q co : String) (o : HandoffOracle) :
    (processUserMessageWithHandoff c q co o).suggestions =
      (runHandoffWorkflow c q co o).1.suggestions := rfl

theorem pum_response (c q co : String) (o : HandoffOracle) :
    (processUserMessageWithHandoff c q co o).response =
      (runHandoffWorkflow c q co o).1.finalResponse := rfl

theorem generateResponse_response (o : Except Unit GenJson) (s : WState) :
    (generateResponse o s).finalResponse =
      match o with
      | .ok g => g.response
      | .error _ => genFailureMsg := by
  cases o <;> rfl

theorem determineStatus_response (o : Except Unit (List SugJson)) (s : WState) :
    (determineStatus o s).finalResponse = s.finalResponse := by
  unfold determineStatus
  split_ifs <;> rfl

theorem run_response_normal_red (c q co : String) (o : HandoffOracle)
    (h : earlyExitB o = false) (hred : finalNeeds o = true ∨ finalConf o < 0.5) :
    (runHandoffWorkflow c q co o).1.finalResponse =
      if o.db = DbOutcome.thrown then genResponseText o
      else genResponseText o ++ connectMsg := by
  rw [run_normal c q co o h]
  show (normalFinalState c q co o).finalResponse = _
  unfold normalFinalState
  have hst : (determineStatus o.sugg
      (generateResponse o.gen
        (retrieveContext o.kb (analyzeQuery o.analysis (initState c q co))))).currentStatus =
      ConversationStatus.red := by
    rw [determineStatus_status, chain_conf, chain_needs, if_pos hred]
  rw [if_pos hst, handleHandoff_response_red _ _ hst, determineStatus_response]
  have hresp : (generateResponse o.gen
      (retrieveContext o.kb (analyzeQuery o.analysis (initState c q co)))).finalResponse =
      genResponseText o := by
    rw [generateResponse_response]
    unfold genResponseText
    cases o.gen <;> rfl
  rw [hresp]

theorem flagFired_imp_finalNeeds (o : HandoffOracle) (h : flagFired o = true) :
    finalNeeds o = true := by
  unfold finalNeeds
  cases hg : o.gen with
  | error e => rfl
  | ok g =>
      unfold flagFired genFlag at h
      rw [hg] at h
      simp only [Bool.or_eq_true_iff, Bool.and_eq_true] at h ⊢
      tauto

theorem finalNeeds_false_imp_flagFired_false (o : HandoffOracle) (h : finalNeeds o = false) :
    flagFired o = false := by
  unfold finalNeeds at h
  cases hg : o.gen with
  | error e =>
      rw [hg] at h
      exact absurd h (by simp)
  | ok g =>
      rw [hg] at h
      simp only [Bool.or_eq_false_iff] at h
      unfold flagFired genFlag
      rw [hg]
      simp [h.1, h.2]

end Handoff

section Claims

open Handoff

/-- C1: every turn processed by the handoff workflow returns severity red
whenever its confidence is below 0.5 or a human-needed flag (analyzer
`needsImmedateHuman` or generator `suggestsHumanHelp`) fired at a stage that
ran; severity is green only when the confidence is at least 0.7 and no such
flag fired. -/
theorem claim_C1 (c q co : String) (o : HandoffOracle) :
    ((flagFired o = true ∨ (processUserMessageWithHandoff c q co o).confidence < 0.5) →
      (processUserMessageWithHandoff c q co o).status = ConversationStatus.red) ∧
    ((processUserMessageWithHandoff c q co o).status = ConversationStatus.green →
      0.7 ≤ (processUserMessageWithHandoff c q co o).confidence ∧ flagFired o = false) := by
  rw [pum_status, pum_confidence]
  by_cases he : earlyExitB o = true
  · constructor
    · intro _
      exact early_status c q co o he
    · intro hg
      rw [early_status c q co o he] at hg
      exact ConversationStatus.noConfusion hg
  · have he' : earlyExitB o = false := by
      simpa using he
    rw [run_conf_normal c q co o he', run_status_normal c q co o he']
    constructor
    · intro hcase
      have hn : finalNeeds o = true ∨ finalConf o < 0.5 := by
        rcases hcase with hf | hc
        · exact Or.inl (flagFired_imp_finalNeeds o hf)
        · exact Or.inr hc
      rw [if_pos hn]
    · intro hg
      by_cases h1 : finalNeeds o = true ∨ finalConf o < 0.5
      · rw [if_pos h1] at hg
        exact ConversationStatus.noConfusion hg
      · rw [if_neg h1] at hg
        by_cases h2 : finalConf o < 0.7
        · rw [if_pos h2] at hg
          exact ConversationStatus.noConfusion hg
        · refine ⟨not_lt.mp h2, ?_⟩
          have hn : finalNeeds o = false := by
            rcases Bool.eq_false_or_eq_true (finalNeeds o) with h | h
            · exact absurd (Or.inl h) h1
            · exact h
          exact finalNeeds_false_imp_flagFired_false o hn

/-- C1 witness: a parsed analysis that fires the human flag (confidence 0.5,
no short circuit) yields a red result. -/
theorem claim_C1_wit :
    (processUserMessageWithHandoff "c1" "q" "co" oW1).status = ConversationStatus.red :=
  (claim_C1 "c1" "q" "co" oW1).1 (Or.inl rfl)

/-- C2 counterexample: on the early-escalation short circuit the workflow
returns severity red with an empty suggestions sequence, refuting the claim
that suggestions are non-empty whenever severity is red on every path. -/
theorem claim_C2_cex :
    (processUserMessageWithHandoff "c1" "q" "co" oEarlyRed).status = ConversationStatus.red ∧
    (processUserMessageWithHandoff "c1" "q" "co" oEarlyRed).suggestions = [] := by
  constructor
  · rw [pum_status]
    refine early_status "c1" "q" "co" oEarlyRed ?_
    simp [oEarlyRed, earlyExitB, jsNumOr]
    norm_num
  · rw [pum_suggestions]
    refine early_suggestions "c1" "q" "co" oEarlyRed ?_
    simp [oEarlyRed, earlyExitB, jsNumOr]
    norm_num

/-- C2 amended: suggestions are empty whenever severity is green; on a run
that does not take the early-escalation short circuit, and whose suggestion
model call never successfully parses to an empty array, suggestions are
non-empty whenever severity is yellow or red; the early-escalation short
circuit itself returns red with empty suggestions. -/
theorem claim_C2 (c q co : String) (o : HandoffOracle)
    (hs : ∀ l, o.sugg = Except.ok l → l ≠ []) :
    ((processUserMessageWithHandoff c q co o).status = ConversationStatus.green →
      (processUserMessageWithHandoff c q co o).suggestions = []) ∧
    (earlyExitB o = false →
      ((processUserMessageWithHandoff c q co o).status = ConversationStatus.yellow ∨
        (processUserMessageWithHandoff c q co o).status = ConversationStatus.red) →
      (processUserMessageWithHandoff c q co o).suggestions ≠ []) ∧
    (earlyExitB o = true →
      (processUserMessageWithHandoff c q co o).status = ConversationStatus.red ∧
      (processUserMessageWithHandoff c q co o).suggestions = []) := by
  rw [pum_status, pum_suggestions]
  by_cases he : earlyExitB o = true
  · refine ⟨?_, ?_, ?_⟩
    · intro hg
      rw [early_status c q co o he] at hg
      exact ConversationStatus.noConfusion hg
    · intro hfalse
      rw [he] at hfalse
      exact absurd hfalse (by simp)
    · intro _
      exact ⟨early_status c q co o he, early_suggestions c q co o he⟩
  · have he' : earlyExitB o = false := by
      simpa using he
    rw [run_status_normal c q co o he', run_sugg_normal c q co o he']
    refine ⟨?_, ?_, ?_⟩
    · intro hg
      by_cases h1 : finalNeeds o = true ∨ finalConf o < 0.5
      · rw [if_pos h1] at hg
        exact ConversationStatus.noConfusion hg
      · rw [if_neg h1] at hg ⊢
        by_cases h2 : finalConf o < 0.7
        · rw [if_pos h2] at hg
          exact ConversationStatus.noConfusion hg
        · rw [if_neg h2]
    · intro _ hyr
      by_cases h1 : finalNeeds o = true ∨ finalConf o < 0.5
      · rw [if_pos h1]
        simp [redSuggestions]
      · rw [if_neg h1] at hyr ⊢
        by_cases h2 : finalConf o < 0.7
        · rw [if_pos h2]
          cases hsug : o.sugg with
          | ok l =>
              have hl : l ≠ [] := hs l hsug
              simp [generateSuggestions, hsug, List.mapIdx_eq_nil_iff, hl]
          | error e =>
              simp [generateSuggestions, hsug, fallbackSuggestion]
        · rw [if_neg h2] at hyr
          rcases hyr with hy | hr
          · exact absurd hy (by simp)
          · exact absurd hr (by simp)
    · intro htrue
      rw [he'] at htrue
      exact absurd htrue (by simp)

/-- C2 witness: a yellow run whose suggestion model call throws still carries
a non-empty suggestions sequence. -/
theorem claim_C2_wit :
    (processUserMessageWithHandoff "c1" "q" "co" oW2).suggestions ≠ [] := by
  refine ((claim_C2 "c1" "q" "co" oW2 ?_).2.1 ?_ ?_)
  · intro l h
    exact Except.noConfusion h
  · rfl
  · left
    rw [pum_status, run_status_normal "c1" "q" "co" oW2 rfl]
    rw [if_neg ?_, if_pos ?_]
    · simp only [oW2, finalNeeds, analysisFlag, finalConf, preGenConf, analysisConf, jsNumOr]
      norm_num [min_def]
    · simp only [oW2, finalNeeds, analysisFlag, finalConf, preGenConf, analysisConf, jsNumOr]
      norm_num [min_def]

/-- C3 counterexample: a model-reported analyzer confidence of `-1` with the
immediate-human flag reaches the returned result unclamped, refuting the claim
that the returned confidence always lies in `[0, 1]`. -/
theorem claim_C3_cex :
    (processUserMessageWithHandoff "c1" "q" "co" oNegConf).confidence = -1 ∧
    ¬ (0 : ℚ) ≤ (processUserMessageWithHandoff "c1" "q" "co" oNegConf).confidence := by
  have he : earlyExitB oNegConf = true := by
    simp [oNegConf, earlyExitB, jsNumOr]
    norm_num
  have h : (processUserMessageWithHandoff "c1" "q" "co" oNegConf).confidence = -1 := by
    rw [pum_confidence, early_confidence "c1" "q" "co" oNegConf he]
    simp [oNegConf, analysisConf, jsNumOr]
  refine ⟨h, ?_⟩
  rw [h]
  norm_num

/-- C3 amended: whenever every model-reported confidence (the analyzer's
`aiConfidence` when present and the generator's `confidence`) lies in `[0, 1]`,
the returned confidence lies in `[0, 1]`; an out-of-range reported value can
reach the result unclamped, so the hypothesis is necessary. -/
theorem claim_C3 (c q co : String) (o : HandoffOracle)
    (hA : ∀ a x, o.analysis = Except.ok a → a.aiConfidence = some x → 0 ≤ x ∧ x ≤ 1)
    (hG : ∀ g, o.gen = Except.ok g → 0 ≤ g.confidence ∧ g.confidence ≤ 1) :
    0 ≤ (processUserMessageWithHandoff c q co o).confidence ∧
      (processUserMessageWithHandoff c q co o).confidence ≤ 1 := by
  rw [pum_confidence]
  have hac : 0 ≤ analysisConf o ∧ analysisConf o ≤ 1 := by
    unfold analysisConf
    cases ha : o.analysis with
    | error e => norm_num
    | ok a =>
        cases hx : a.aiConfidence with
        | none =>
            simp only [jsNumOr, hx]
            norm_num
        | some x =>
            simp only [jsNumOr, hx]
            split
            · norm_num
            · exact hA a x ha hx
  by_cases he : earlyExitB o = true
  · rw [early_confidence c q co o he]
    exact hac
  · have he' : earlyExitB o = false := by
      simpa using he
    rw [run_conf_normal c q co o he']
    have hpre : 0 ≤ preGenConf o ∧ preGenConf o ≤ 1 := by
      unfold preGenConf
      cases o.kb with
      | ok r => exact hac
      | error e =>
          constructor
          · apply le_min
            · nlinarith [hac.1]
            · norm_num
          · calc min (analysisConf o * 0.7) 0.5 ≤ 0.5 := min_le_right _ _
              _ ≤ 1 := by norm_num
    unfold finalConf
    cases hg : o.gen with
    | error e => norm_num
    | ok g =>
        have hgc := hG g hg
        constructor
        · apply le_min
          · nlinarith [hpre.1, hgc.1]
          · norm_num
        · calc min (preGenConf o * 0.6 + g.confidence * 0.4) 0.95 ≤ 0.95 := min_le_right _ _
            _ ≤ 1 := by norm_num

/-- C3 witness: with all reported confidences inside `[0, 1]`, the returned
confidence is inside `[0, 1]`. -/
theorem claim_C3_wit :
    0 ≤ (processUserMessageWithHandoff "c1" "q" "co" oW3).confidence ∧
      (processUserMessageWithHandoff "c1" "q" "co" oW3).confidence ≤ 1 := by
  refine claim_C3 "c1" "q" "co" oW3 ?_ ?_
  · intro a x ha hx
    simp only [oW3, Except.ok.injEq] at ha
    subst ha
    simp only [Option.some.injEq] at hx
    subst hx
    norm_num
  · intro g hg
    simp only [oW3, Except.ok.injEq] at hg
    subst hg
    norm_num

/-- C4 counterexample: when every language-model call throws, the stage-level
fallbacks produce a red result with confidence `0.3` (not `0.0`) and the two
fixed red suggestions (not exactly one suggestion of confidence `1.0`). -/
theorem claim_C4_cex :
    (processUserMessageWithHandoff "c1" "q" "co" oAllThrow).status = ConversationStatus.red ∧
    (processUserMessageWithHandoff "c1" "q" "co" oAllThrow).confidence = 0.3 ∧
    (processUserMessageWithHandoff "c1" "q" "co" oAllThrow).confidence ≠ 0 ∧
    (processUserMessageWithHandoff "c1" "q" "co" oAllThrow).suggestions.length = 2 := by
  have hne : finalNeeds oAllThrow = true := rfl
  have hconf : (processUserMessageWithHandoff "c1" "q" "co" oAllThrow).confidence = 0.3 := by
    rw [pum_confidence, run_conf_normal "c1" "q" "co" oAllThrow rfl]
    rfl
  refine ⟨?_, hconf, ?_, ?_⟩
  · rw [pum_status, run_status_normal "c1" "q" "co" oAllThrow rfl, if_pos (Or.inl hne)]
  · rw [hconf]
    norm_num
  · rw [pum_suggestions, run_sugg_normal "c1" "q" "co" oAllThrow rfl, if_pos (Or.inl hne)]
    rfl

/-- C4 amended: when every language-model call throws (whatever the
knowledge-base and persistence outcomes), no exception propagates and the
returned result is red with confidence `0.3`, the two fixed red suggestions,
and the generation-failure apology (with the connect sentence appended unless
the status update throws); the `0.0`-confidence single-suggestion response
belongs to the orchestrator's outer catch, which the stage-level handlers keep
unreachable in this scenario. -/
theorem claim_C4 (c q co : String) (kbO : Except Unit KBResult) (dbO : DbOutcome) :
    (processUserMessageWithHandoff c q co (outageOracle kbO dbO)).status =
      ConversationStatus.red ∧
    (processUserMessageWithHandoff c q co (outageOracle kbO dbO)).confidence = 0.3 ∧
    (processUserMessageWithHandoff c q co (outageOracle kbO dbO)).suggestions =
      redSuggestions ∧
    (processUserMessageWithHandoff c q co (outageOracle kbO dbO)).response =
      (if dbO = DbOutcome.thrown then genFailureMsg else genFailureMsg ++ connectMsg) := by
  have hne : finalNeeds (outageOracle kbO dbO) = true := rfl
  refine ⟨?_, ?_, ?_, ?_⟩
  · rw [pum_status, run_status_normal c q co (outageOracle kbO dbO) rfl, if_pos (Or.inl hne)]
  · rw [pum_confidence, run_conf_normal c q co (outageOracle kbO dbO) rfl]
    rfl
  · rw [pum_suggestions, run_sugg_normal c q co (outageOracle kbO dbO) rfl, if_pos (Or.inl hne)]
  · rw [pum_response, run_response_normal_red c q co (outageOracle kbO dbO) rfl (Or.inl hne)]
    rfl

/-- C5 counterexample: with `needsImmediateHuman = true` and a reported
`aiConfidence` of exactly `0` (which is below `0.3`), the `|| 0.8` defaulting
suppresses the short circuit and both the retriever and the generator are
called, refuting the claim for that input. -/
theorem claim_C5_cex :
    oZeroConf.analysis =
      Except.ok { aiConfidence := some 0, needsImmedateHuman := true, reasoning := "" } ∧
    (0 : ℚ) < 0.3 ∧
    (runHandoffWorkflow "c1" "q" "co" oZeroConf).2.retrieverCalled = true ∧
    (runHandoffWorkflow "c1" "q" "co" oZeroConf).2.generatorCalled = true := by
  have he : earlyExitB oZeroConf = false := by
    simp only [oZeroConf, earlyExitB, jsNumOr]
    norm_num
  refine ⟨rfl, by norm_num, ?_, ?_⟩
  · rw [run_normal "c1" "q" "co" oZeroConf he]
  · rw [run_normal "c1" "q" "co" oZeroConf he]

/-- C5 amended: if the analyzer reports `needsImmediateHuman = true` with a
nonzero `aiConfidence` below `0.3`, the orchestrator short-circuits to red with
the fixed escalation message (plus the appended connect sentence unless the
status update throws) and calls neither the context retriever nor the response
generator. -/
theorem claim_C5 (c q co : String) (o : HandoffOracle) (a : AnalysisJson) (x : ℚ)
    (h1 : o.analysis = Except.ok a) (h2 : a.needsImmedateHuman = true)
    (h3 : a.aiConfidence = some x) (h4 : x ≠ 0) (h5 : x < 0.3) :
    (runHandoffWorkflow c q co o).1.currentStatus = ConversationStatus.red ∧
    (runHandoffWorkflow c q co o).2.retrieverCalled = false ∧
    (runHandoffWorkflow c q co o).2.generatorCalled = false ∧
    (runHandoffWorkflow c q co o).1.finalResponse =
      (if o.db = DbOutcome.thrown then earlyEscalationMsg
       else earlyEscalationMsg ++ connectMsg) := by
  have he : earlyExitB o = true := by
    unfold earlyExitB
    simp only [h1, h2, h3, jsNumOr, if_neg h4, Bool.true_and, decide_eq_true_eq]
    exact h5
  refine ⟨early_status c q co o he, ?_, ?_, early_response c q co o he⟩
  · rw [run_early c q co o he]
  · rw [run_early c q co o he]

/-- C5 witness: a reported flag with truthy confidence `0.2` short-circuits to
red without calling the retriever or the generator. -/
theorem claim_C5_wit :
    (runHandoffWorkflow "c1" "q" "co" oW5).1.currentStatus = ConversationStatus.red ∧
    (runHandoffWorkflow "c1" "q" "co" oW5).2.retrieverCalled = false ∧
    (runHandoffWorkflow "c1" "q" "co" oW5).2.generatorCalled = false ∧
    (runHandoffWorkflow "c1" "q" "co" oW5).1.finalResponse =
      (if oW5.db = DbOutcome.thrown then earlyEscalationMsg
       else earlyEscalationMsg ++ connectMsg) :=
  claim_C5 "c1" "q" "co" oW5
    { aiConfidence := some 0.2, needsImmedateHuman := true, reasoning := "urgent" } 0.2
    rfl rfl rfl (by norm_num) (by norm_num)

/-- C6 counterexample: when retrieval throws, the confidence entering the
blend is `min(0.9·0.7, 0.5) = 0.5` rather than the analyzer confidence `0.9`,
so the returned confidence `0.5` differs from the claimed
`min(0.9·0.6 + 0.5·0.4, 0.95) = 0.74`. -/
theorem claim_C6_cex :
    (runHandoffWorkflow "c1" "q" "co" oKbThrow).1.confidence = 0.5 ∧
    (runHandoffWorkflow "c1" "q" "co" oKbThrow).1.confidence ≠
      min ((0.9 : ℚ) * 0.6 + 0.5 * 0.4) 0.95 := by
  have hconf : (runHandoffWorkflow "c1" "q" "co" oKbThrow).1.confidence = 0.5 := by
    rw [run_conf_normal "c1" "q" "co" oKbThrow rfl]
    simp only [finalConf, preGenConf, analysisConf, oKbThrow, jsNumOr]
    norm_num [min_def]
  refine ⟨hconf, ?_⟩
  rw [hconf]
  norm_num [min_def]

/-- C6 amended: for every turn that is not short-circuited, a successful
generation yields confidence `min(preGen·0.6 + generator·0.4, 0.95)`, where
`preGen` is the analyzer confidence unless retrieval threw (then
`min(analyzer·0.7, 0.5)`); a failed generation yields the flat fallback
`0.3`. -/
theorem claim_C6 (c q co : String) (o : HandoffOracle) (h : earlyExitB o = false) :
    (∀ g, o.gen = Except.ok g →
      (runHandoffWorkflow c q co o).1.confidence =
        min (preGenConf o * 0.6 + g.confidence * 0.4) 0.95) ∧
    (o.gen = Except.error () →
      (runHandoffWorkflow c q co o).1.confidence = 0.3) := by
  rw [run_conf_normal c q co o h]
  constructor
  · intro g hg
    unfold finalConf
    rw [hg]
  · intro hg
    unfold finalConf
    rw [hg]

/-- C6 witness: a successful generation after successful retrieval blends the
two confidences with the 0.6/0.4 weights under the 0.95 cap. -/
theorem claim_C6_wit :
    (runHandoffWorkflow "c1" "q" "co" oW6).1.confidence =
      min (preGenConf oW6 * 0.6 + (0.5 : ℚ) * 0.4) 0.95 :=
  (claim_C6 "c1" "q" "co" oW6 rfl).1
    { response := "resp", confidence := 0.5, suggestsHumanHelp := false } rfl

set_option maxRecDepth 40000 in
/-- C7 counterexample: a knowledge-base miss yields the mock fallback context
(no real tenant passages), yet a hedge-free response over it keeps confidence
`0.8` — the claimed cap at `0.5` for fallback context does not fire (the code
caps only on the retrieval-error context containing `trouble accessing`). -/
theorem claim_C7_cex :
    Simple.retrieveContext (Except.ok { chunks := [], sources := [] }) "zzz" (some "co") =
      (Simple.mockContext.take 3, []) ∧
    (Simple.generateResponse (Except.ok c7Reply) (Simple.mockContext.take 3) []).2 = 0.8 ∧
    ¬ ((0.8 : ℚ) ≤ 0.5) := by
  refine ⟨by decide, ?_, by norm_num⟩
  have hhedge : Simple.hedges c7Reply = false := by decide
  have htrouble :
      (Simple.mockContext.take 3).any (fun c => jsIncludes c "trouble accessing") = false := by
    decide
  simp only [Simple.generateResponse, hhedge, htrouble]
  norm_num [Simple.mockContext]

/-- C7 amended: the simple workflow's generator confidence starts at the fixed
`0.8` (the model reports no confidence), is `0.6` on hedging language, `0.5`
when the context is empty or contains a `trouble accessing` passage (the
retrieval-error fallback — the knowledge-base-miss mock fallback does not
trigger this cap), gains `0.1` capped at `0.95` when real sources are present,
and is the fixed apology with `0.3` when the call throws. -/
theorem claim_C7 (t : String) (context : List String) (sources : List SourceDoc) :
    (Simple.generateResponse (Except.error ()) context sources =
      (Simple.genFailureMsg, 0.3)) ∧
    (Simple.hedges t = false → context ≠ [] →
      context.any (fun c => jsIncludes c "trouble accessing") = false → sources = [] →
      (Simple.generateResponse (Except.ok t) context sources).2 = 0.8) ∧
    (Simple.hedges t = true → context ≠ [] →
      context.any (fun c => jsIncludes c "trouble accessing") = false → sources = [] →
      (Simple.generateResponse (Except.ok t) context sources).2 = 0.6) ∧
    ((context = [] ∨ context.any (fun c => jsIncludes c "trouble accessing") = true) →
      sources = [] →
      (Simple.generateResponse (Except.ok t) context sources).2 = 0.5) ∧
    (sources ≠ [] →
      (Simple.generateResponse (Except.ok t) context sources).2 =
        min ((Simple.generateResponse (Except.ok t) context []).2 + 0.1) 0.95) := by
  refine ⟨rfl, ?_, ?_, ?_, ?_⟩
  · intro h1 h2 h3 h4
    subst h4
    simp [Simple.generateResponse, h1, h3, List.length_eq_zero, h2]
  · intro h1 h2 h3 h4
    subst h4
    simp [Simple.generateResponse, h1, h3, List.length_eq_zero, h2]
  · intro h1 h2
    subst h2
    rcases h1 with h | h
    · subst h
      simp [Simple.generateResponse]
    · simp [Simple.generateResponse, h]
  · intro h1
    simp [Simple.generateResponse, List.length_pos, h1]

/-- C7 witness: a hedged reply over a healthy non-empty context with no
sources is capped at `0.6`. -/
theorem claim_C7_wit :
    (Simple.generateResponse (Except.ok c7Hedged) ["ctx"] []).2 = 0.6 :=
  (claim_C7 c7Hedged ["ctx"] []).2.2.1 (by decide) (by decide) (by decide) rfl

/-- C8 counterexample: with confidence not above `0.7`, the concurrent
suggestion generator returns one suggestion per parsed entry — four entries
yield four suggestions, refuting the claimed bound of at most three. -/
theorem claim_C8_cex :
    (Concurrent.createSuggestionsRunnable 0.5 (Except.ok c8List)).length = 4 ∧
    ¬ ((4 : ℕ) ≤ 3) := by
  constructor
  · simp only [Concurrent.createSuggestionsRunnable]
    rw [if_neg (by norm_num : ¬ ((0.7 : ℚ) < 0.5))]
    rfl
  · norm_num

/-- C8 amended: the concurrent suggestion generator returns empty exactly when
the confidence passed exceeds `0.7`, falls back to the single static
review-context suggestion (confidence `0.8`) on failure, and otherwise returns
one suggestion per parsed model entry with no bound enforced; the simple
workflow's generator instead skips only above `0.8` and falls back to three
static suggestions. -/
theorem claim_C8 :
    (∀ (conf : ℚ) (o : Except Unit (List SugJson)), 0.7 < conf →
      Concurrent.createSuggestionsRunnable conf o = []) ∧
    (∀ conf : ℚ, ¬ 0.7 < conf →
      Concurrent.createSuggestionsRunnable conf (Except.error ()) =
        [Handoff.fallbackSuggestion]) ∧
    (∀ (conf : ℚ) (l : List SugJson), ¬ 0.7 < conf →
      (Concurrent.createSuggestionsRunnable conf (Except.ok l)).length = l.length) ∧
    (∀ (conf : ℚ) (o : Except Unit (List SugJson)), 0.8 < conf →
      Simple.generateSuggestions o conf = []) ∧
    (∀ conf : ℚ, ¬ 0.8 < conf →
      Simple.generateSuggestions (Except.error ()) conf = Simple.fallbackSuggestions) := by
  refine ⟨?_, ?_, ?_, ?_, ?_⟩
  · intro conf o h
    simp only [Concurrent.createSuggestionsRunnable]
    rw [if_pos h]
  · intro conf h
    simp only [Concurrent.createSuggestionsRunnable]
    rw [if_neg h]
  · intro conf l h
    simp only [Concurrent.createSuggestionsRunnable]
    rw [if_neg h]
    simp [List.length_mapIdx]
  · intro conf o h
    simp only [Simple.generateSuggestions]
    rw [if_pos h]
  · intro conf h
    simp only [Simple.generateSuggestions]
    rw [if_neg h]

/-- C8 witness: the thresholds and fallbacks at concrete confidences. -/
theorem claim_C8_wit :
    Concurrent.createSuggestionsRunnable 0.9 (Except.error ()) = [] ∧
    Concurrent.createSuggestionsRunnable 0.5 (Except.error ()) = [Handoff.fallbackSuggestion] ∧
    Simple.generateSuggestions (Except.error ()) 0.5 = Simple.fallbackSuggestions :=
  ⟨claim_C8.1 0.9 (Except.error ()) (by norm_num),
   claim_C8.2.1 0.5 (by norm_num),
   claim_C8.2.2.2.2 0.5 (by norm_num)⟩

/-- C9: a successfully parsed analysis never yields analyzer confidence `0`
(the `|| 0.8` defaulting replaces a reported `0`), and a parsed confidence of
exactly `0` can never trigger the early-escalation short circuit — the
retriever and generator still run. -/
theorem claim_C9 (c q co : String) (o : Handoff.HandoffOracle) (a : AnalysisJson)
    (s : Handoff.WState) :
    (Handoff.analyzeQuery (Except.ok a) s).confidence ≠ 0 ∧
    (o.analysis = Except.ok a → a.aiConfidence = some 0 →
      (Handoff.analyzeQuery (Except.ok a) s).confidence = 0.8 ∧
      (runHandoffWorkflow c q co o).2.retrieverCalled = true ∧
      (runHandoffWorkflow c q co o).2.generatorCalled = true) := by
  constructor
  · rw [analyzeQuery_confidence]
    show jsNumOr a.aiConfidence 0.8 ≠ 0
    unfold jsNumOr
    cases a.aiConfidence with
    | none => norm_num
    | some x =>
        dsimp only
        split
        · norm_num
        · next hx => exact hx
  · intro h1 h2
    have h08 : jsNumOr a.aiConfidence 0.8 = 0.8 := by
      rw [h2]
      simp [jsNumOr]
    have he : earlyExitB o = false := by
      unfold earlyExitB
      simp only [h1, h08]
      have : ¬ ((0.8 : ℚ) < 0.3) := by norm_num
      simp [this]
    refine ⟨?_, ?_, ?_⟩
    · rw [analyzeQuery_confidence]
      exact h08
    · rw [run_normal c q co o he]
    · rw [run_normal c q co o he]

/-- C9 witness: the parsed-zero analysis yields confidence `0.8 ≠ 0` and the
retriever is still called. -/
theorem claim_C9_wit :
    (Handoff.analyzeQuery
        (Except.ok { aiConfidence := some 0, needsImmedateHuman := false, reasoning := "" })
        (Handoff.initState "c1" "q" "co")).confidence ≠ 0 ∧
    (runHandoffWorkflow "c1" "q" "co" oW9).2.retrieverCalled = true :=
  ⟨(claim_C9 "c1" "q" "co" oW9
      { aiConfidence := some 0, needsImmedateHuman := false, reasoning := "" }
      (Handoff.initState "c1" "q" "co")).1,
   ((claim_C9 "c1" "q" "co" oW9
      { aiConfidence := some 0, needsImmedateHuman := false, reasoning := "" }
      (Handoff.initState "c1" "q" "co")).2 rfl rfl).2.1⟩

/-- C10 counterexample: when generation fails (red path) and the persistence
update throws, the handoff catch returns the state unchanged — the returned
red result does not carry the appended escalation sentence the claim
describes. -/
theorem claim_C10_cex :
    (runHandoffWorkflow "c1" "q" "co" oGenFailDbThrow).1.currentStatus =
      ConversationStatus.red ∧
    (runHandoffWorkflow "c1" "q" "co" oGenFailDbThrow).1.finalResponse = genFailureMsg ∧
    genFailureMsg ≠ genFailureMsg ++ connectMsg := by
  have hne : finalNeeds oGenFailDbThrow = true := rfl
  refine ⟨?_, ?_, ?_⟩
  · rw [run_status_normal "c1" "q" "co" oGenFailDbThrow rfl, if_pos (Or.inl hne)]
  · rw [run_response_normal_red "c1" "q" "co" oGenFailDbThrow rfl (Or.inl hne)]
    rw [if_pos (show oGenFailDbThrow.db = DbOutcome.thrown from rfl)]
    rfl
  · intro hcontra
    have hlen := congrArg String.length hcontra
    rw [String.length_append] at hlen
    have hc : 0 < connectMsg.length := by decide
    omega

/-- C10 amended: a failed persistence update never surfaces an error and the
red result is still returned; the escalation sentence is appended when the
update resolves (also when it merely reports an error result), but not when it
throws — and in the concurrent handoff a failed update always throws; the
returned severity is independent of the persistence outcome. -/
theorem claim_C10 (s : Handoff.WState) (h : s.currentStatus = ConversationStatus.red) :
    ((Handoff.handleHandoff DbOutcome.errResult s).currentStatus = ConversationStatus.red ∧
      (Handoff.handleHandoff DbOutcome.errResult s).finalResponse =
        s.finalResponse ++ connectMsg) ∧
    Handoff.handleHandoff DbOutcome.thrown s = s ∧
    Concurrent.handleConcurrentHandoff (Except.error ()) s = s ∧
    (Concurrent.handleConcurrentHandoff (Except.ok ()) s).finalResponse =
      s.finalResponse ++ connectMsg ∧
    (∀ (c q co : String) (o : Handoff.HandoffOracle) (d : DbOutcome),
      (runHandoffWorkflow c q co { o with db := d }).1.currentStatus =
        (runHandoffWorkflow c q co o).1.currentStatus) := by
  refine ⟨⟨?_, ?_⟩, rfl, rfl, ?_, ?_⟩
  · rw [handleHandoff_status]
    exact h
  · rw [handleHandoff_response_red _ _ h]
    rw [if_neg (by decide : ¬ (DbOutcome.errResult = DbOutcome.thrown))]
  · simp [Concurrent.handleConcurrentHandoff, h]
  · intro c q co o d
    by_cases he : earlyExitB o = true
    · have hb : earlyExitB { o with db := d } = true := he
      rw [early_status c q co _ hb, early_status c q co o he]
    · have he' : earlyExitB o = false := by
        simpa using he
      have hb : earlyExitB { o with db := d } = false := he'
      rw [run_status_normal c q co _ hb, run_status_normal c q co o he']
      rfl

/-- C10 witness: at a concrete red state, the error-result update appends the
sentence while the thrown update leaves the state unchanged. -/
theorem claim_C10_wit :
    (Handoff.handleHandoff DbOutcome.errResult sW10).finalResponse =
      sW10.finalResponse ++ connectMsg ∧
    Handoff.handleHandoff DbOutcome.thrown sW10 = sW10 :=
  ⟨(claim_C10 sW10 rfl).1.2, (claim_C10 sW10 rfl).2.1⟩

end Claims

end Looped
